import Mathlib

/-!
Verification of the packaging configuration script (`forge.config.js`).

The script declares an Electron Forge configuration with three lifecycle
hooks (`generateAssets`, `prePackage`, `packageAfterCopy`), a publisher
configuration whose `prerelease` flag is `version.includes('beta')` and whose
`authToken` is `process.env.GITHUB_TOKEN`.

Shallow embedding: the filesystem is a map from path strings to file
contents; every synchronous `fs` call and every external invocation is a
step in a state-and-trace monad `M`.  External collaborators (the
schema-to-type compiler, the PowerShell runner's underlying process) are
oracles passed in as function parameters.  `path.join` is modelled as
separator concatenation, so the `'../../LICENSE'` argument stays a textual
relative path exactly as it occurs in the source.
-/

set_option linter.unusedVariables false

namespace Forge

/-- A filesystem: total map from paths to optional file contents. -/
def FS : Type := String → Option String

/-- Observable effects of a hook run, in order of occurrence. -/
inductive Event where
  | readF : String → Event
  | writeF : String → String → Event
  | copyF : String → String → Event
  | runPwsh : String → String → Event
  | compileSchema : String → Event
  | importBuild : String → Event
deriving DecidableEq

/-- Hook execution state: the filesystem plus the trace of effects so far. -/
structure St where
  fs : FS
  trace : List Event

/-- The hook monad: state passing with `Except`-style failure (a thrown
JavaScript error aborts the `async` hook). -/
def M (α : Type) : Type := St → Except String α × St

/-- Sequencing of hook steps: a thrown error short-circuits. -/
def mbind {α β : Type} (x : M α) (f : α → M β) : M β := fun st =>
  match x st with
  | (Except.ok a, st1) => f a st1
  | (Except.error e, st1) => (Except.error e, st1)

/-- `path.join(a, b)` modelled as separator concatenation. -/
def pathJoin (a b : String) : String := a ++ "/" ++ b

/-- `fs.readFileSync(p).toString()`: returns the contents, throws ENOENT if
the file is absent. -/
def readFileSync (p : String) : M String := fun st =>
  match st.fs p with
  | some c => (Except.ok c, { fs := st.fs, trace := st.trace ++ [Event.readF p] })
  | none => (Except.error ("ENOENT: " ++ p), st)

/-- `fs.writeFileSync(p, c)`: creates or overwrites the file. -/
def writeFileSync (p c : String) : M Unit := fun st =>
  (Except.ok (), { fs := fun q => if q = p then some c else st.fs q,
                   trace := st.trace ++ [Event.writeF p c] })

/-- `fs.copyFileSync(src, dst)`: throws ENOENT if the source is absent,
otherwise writes the source's contents to the destination. -/
def copyFileSync (src dst : String) : M Unit := fun st =>
  match st.fs src with
  | some c =>
      (Except.ok (), { fs := fun q => if q = dst then some c else st.fs q,
                       trace := st.trace ++ [Event.copyF src dst] })
  | none => (Except.error ("ENOENT: " ++ src), st)

/-- `runPwshScript(script, args)`: records the external invocation and
returns whatever the external process oracle returns. -/
def runPwshScript (pwsh : String → String → Except String Unit)
    (script args : String) : M Unit := fun st =>
  (pwsh script args, { fs := st.fs, trace := st.trace ++ [Event.runPwsh script args] })

/-- `compileFromFile(p)`: records the compiler invocation and returns the
compiler oracle's output (or propagates its failure). -/
def compileFromFile (compiler : String → Except String String) (p : String) :
    M String := fun st =>
  (compiler p, { fs := st.fs, trace := st.trace ++ [Event.compileSchema p] })

/-- `await import('./scripts/build.mjs')`: records the external build step. -/
def importScript (p : String) : M Unit := fun st =>
  (Except.ok (), { fs := st.fs, trace := st.trace ++ [Event.importBuild p] })

/-- JavaScript `Array.prototype.join(sep)`. -/
def jsJoin (sep : String) : List String → String
  | [] => ""
  | [x] => x
  | x :: y :: xs => x ++ sep ++ jsJoin sep (y :: xs)

/-- JavaScript `String.prototype.includes`, as a left-to-right scan that
checks at each position whether the needle starts there. -/
def includesAux : List Char → List Char → Bool
  | [], sub => sub.isEmpty
  | s@(_ :: t), sub => sub.isPrefixOf s || includesAux t sub

/-- `s.includes(sub)` for strings. -/
def jsIncludes (s sub : String) : Bool := includesAux s.data sub.data

/-- `package_json.version.includes('beta')`: the publisher's prerelease
flag, as a function of the manifest version string. -/
def prereleaseOf (version : String) : Bool := jsIncludes version "beta"

/-- The `repository` entry of the GitHub publisher configuration. -/
structure RepoRef where
  owner : String
  name : String
deriving DecidableEq

/-- The GitHub publisher's `config` object. -/
structure PublisherConfig where
  repository : RepoRef
  prerelease : Bool
  generateReleaseNotes : Bool
  authToken : Option String
deriving DecidableEq

/-- `publishers[0].config`, as a function of the process environment and
the manifest version string. -/
def publisherConfig (env : String → Option String) (version : String) :
    PublisherConfig :=
  { repository := { owner := "eythaann", name := "komorebi-ui" },
    prerelease := prereleaseOf version,
    generateReleaseNotes := true,
    authToken := env "GITHUB_TOKEN" }

/-- The `generateAssets` hook: compile each of the two schemas, write each
generated type-definition file, then run the external build script. -/
def generateAssets (compiler : String → Except String String) : M Unit :=
  mbind (compileFromFile compiler "./komorebi/schema.json") (fun t1 =>
  mbind (writeFileSync "./src/JsonSettings.interface.ts" t1) (fun _ =>
  mbind (compileFromFile compiler "./komorebi/schema.asc.json") (fun t2 =>
  mbind (writeFileSync "./src/YamlSettings.interface.ts" t2) (fun _ =>
  importScript "./scripts/build.mjs"))))

/-- The `prePackage` hook: unconditionally run the external PowerShell
script with the fixed output-folder argument.  The hook receives the
target `platform` and `version` but never inspects them. -/
def prePackage (platform version cwd : String)
    (pwsh : String → String → Except String Unit) : M Unit :=
  runPwshScript pwsh "prePackage.ps1"
    ("-Folder " ++ pathJoin cwd "out/Komorebi UI-win32-x64")

/-- The `packageAfterCopy` hook: read the three license texts, overwrite
the framework license file two levels above the staging directory with
their separator-joined concatenation, then copy the four komorebi
artifacts into the staging directory.  `dirname` is `__dirname`,
`buildPath` the staging directory. -/
def packageAfterCopy (dirname buildPath : String) : M Unit :=
  mbind (readFileSync (pathJoin dirname "LICENSE")) (fun ownLicense =>
  mbind (readFileSync (pathJoin dirname "komorebi/LICENSE")) (fun komorebiLicense =>
  mbind (readFileSync (pathJoin buildPath "../../LICENSE")) (fun electronLicense =>
  mbind (writeFileSync (pathJoin buildPath "../../LICENSE")
      (jsJoin "\n\n- - -\n\n" [ownLicense, komorebiLicense, electronLicense])) (fun _ =>
  mbind (copyFileSync
      (pathJoin dirname "komorebi/target/x86_64-pc-windows-msvc/release/komorebi.exe")
      (pathJoin buildPath "komorebi.exe")) (fun _ =>
  mbind (copyFileSync
      (pathJoin dirname "komorebi/target/x86_64-pc-windows-msvc/release/komorebic.exe")
      (pathJoin buildPath "komorebic.exe")) (fun _ =>
  mbind (copyFileSync
      (pathJoin dirname "komorebi/komorebi.sample.ahk")
      (pathJoin buildPath "komorebi.sample.ahk")) (fun _ =>
  copyFileSync
      (pathJoin dirname "komorebi/komorebic.lib.ahk")
      (pathJoin buildPath "komorebic.lib.ahk"))))))))

/-- The three hooks in their pipeline order, with the process environment
threaded through.  The hooks themselves never consult the environment;
only the publisher configuration does. -/
def runAllHooks (env : String → Option String)
    (compiler : String → Except String String)
    (pwsh : String → String → Except String Unit)
    (platform version dirname cwd buildPath : String) : M Unit :=
  mbind (generateAssets compiler) (fun _ =>
  mbind (prePackage platform version cwd pwsh) (fun _ =>
  packageAfterCopy dirname buildPath))

/-! ### Helper lemmas about strings and paths -/

/-- Two appends with equal-length, distinct suffixes are distinct strings. -/
lemma append_ne_of_suffix_ne (a b x y : String) (hl : x.data.length = y.data.length)
    (hxy : x ≠ y) : a ++ x ≠ b ++ y := by
  intro h
  apply hxy
  apply String.ext
  have hd : a.data ++ x.data = b.data ++ y.data := congrArg String.data h
  exact (List.append_inj' hd hl).2

/-- Joined paths with distinct suffixes of equal length are distinct,
whatever the two base directories are. -/
lemma pathJoin_ne (d b u v ua us va vs : String)
    (hu : u = ua ++ us) (hv : v = va ++ vs)
    (hl : us.data.length = vs.data.length) (hne : us ≠ vs) :
    pathJoin d u ≠ pathJoin b v := by
  intro h
  rw [pathJoin, pathJoin, hu, hv, ← String.append_assoc, ← String.append_assoc] at h
  exact append_ne_of_suffix_ne _ _ _ _ hl hne h

/-- Joining distinct relative paths onto the same base gives distinct paths. -/
lemma pathJoin_ne_of_arg_ne (b u v : String) (hne : u ≠ v) :
    pathJoin b u ≠ pathJoin b v := by
  intro h
  apply hne
  apply String.ext
  have hd : (b ++ "/").data ++ u.data = (b ++ "/").data ++ v.data :=
    congrArg String.data h
  exact List.append_cancel_left hd

lemma src1_ne_licPath (d b : String) :
    pathJoin d "komorebi/target/x86_64-pc-windows-msvc/release/komorebi.exe" ≠
      pathJoin b "../../LICENSE" :=
  pathJoin_ne d b _ _ "komorebi/target/x86_64-pc-windows-msvc/release" "/komorebi.exe"
    "" "../../LICENSE" (by decide) (by decide) (by decide) (by decide)

lemma src2_ne_licPath (d b : String) :
    pathJoin d "komorebi/target/x86_64-pc-windows-msvc/release/komorebic.exe" ≠
      pathJoin b "../../LICENSE" :=
  pathJoin_ne d b _ _ "komorebi/target/x86_64-pc-windows-msvc/release/" "komorebic.exe"
    "" "../../LICENSE" (by decide) (by decide) (by decide) (by decide)

lemma src3_ne_licPath (d b : String) :
    pathJoin d "komorebi/komorebi.sample.ahk" ≠ pathJoin b "../../LICENSE" :=
  pathJoin_ne d b _ _ "komorebi/komore" "bi.sample.ahk" "" "../../LICENSE"
    (by decide) (by decide) (by decide) (by decide)

lemma src4_ne_licPath (d b : String) :
    pathJoin d "komorebi/komorebic.lib.ahk" ≠ pathJoin b "../../LICENSE" :=
  pathJoin_ne d b _ _ "komorebi/komo" "rebic.lib.ahk" "" "../../LICENSE"
    (by decide) (by decide) (by decide) (by decide)

lemma src2_ne_dst1 (d b : String) :
    pathJoin d "komorebi/target/x86_64-pc-windows-msvc/release/komorebic.exe" ≠
      pathJoin b "komorebi.exe" :=
  pathJoin_ne d b _ _ "komorebi/target/x86_64-pc-windows-msvc/release/k" "omorebic.exe"
    "" "komorebi.exe" (by decide) (by decide) (by decide) (by decide)

lemma src3_ne_dst1 (d b : String) :
    pathJoin d "komorebi/komorebi.sample.ahk" ≠ pathJoin b "komorebi.exe" :=
  pathJoin_ne d b _ _ "komorebi/komoreb" "i.sample.ahk" "" "komorebi.exe"
    (by decide) (by decide) (by decide) (by decide)

lemma src3_ne_dst2 (d b : String) :
    pathJoin d "komorebi/komorebi.sample.ahk" ≠ pathJoin b "komorebic.exe" :=
  pathJoin_ne d b _ _ "komorebi/komore" "bi.sample.ahk" "" "komorebic.exe"
    (by decide) (by decide) (by decide) (by decide)

lemma src4_ne_dst1 (d b : String) :
    pathJoin d "komorebi/komorebic.lib.ahk" ≠ pathJoin b "komorebi.exe" :=
  pathJoin_ne d b _ _ "komorebi/komor" "ebic.lib.ahk" "" "komorebi.exe"
    (by decide) (by decide) (by decide) (by decide)

lemma src4_ne_dst2 (d b : String) :
    pathJoin d "komorebi/komorebic.lib.ahk" ≠ pathJoin b "komorebic.exe" :=
  pathJoin_ne d b _ _ "komorebi/komo" "rebic.lib.ahk" "" "komorebic.exe"
    (by decide) (by decide) (by decide) (by decide)

lemma src4_ne_dst3 (d b : String) :
    pathJoin d "komorebi/komorebic.lib.ahk" ≠ pathJoin b "komorebi.sample.ahk" :=
  pathJoin_ne d b _ _ "komoreb" "i/komorebic.lib.ahk" "" "komorebi.sample.ahk"
    (by decide) (by decide) (by decide) (by decide)

lemma licPath_ne_dst1 (b : String) :
    pathJoin b "../../LICENSE" ≠ pathJoin b "komorebi.exe" :=
  pathJoin_ne_of_arg_ne b _ _ (by decide)

lemma licPath_ne_dst2 (b : String) :
    pathJoin b "../../LICENSE" ≠ pathJoin b "komorebic.exe" :=
  pathJoin_ne_of_arg_ne b _ _ (by decide)

lemma licPath_ne_dst3 (b : String) :
    pathJoin b "../../LICENSE" ≠ pathJoin b "komorebi.sample.ahk" :=
  pathJoin_ne_of_arg_ne b _ _ (by decide)

lemma licPath_ne_dst4 (b : String) :
    pathJoin b "../../LICENSE" ≠ pathJoin b "komorebic.lib.ahk" :=
  pathJoin_ne_of_arg_ne b _ _ (by decide)

lemma dst1_ne_licPath (b : String) :
    pathJoin b "komorebi.exe" ≠ pathJoin b "../../LICENSE" :=
  pathJoin_ne_of_arg_ne b _ _ (by decide)

lemma dst2_ne_licPath (b : String) :
    pathJoin b "komorebic.exe" ≠ pathJoin b "../../LICENSE" :=
  pathJoin_ne_of_arg_ne b _ _ (by decide)

lemma dst3_ne_licPath (b : String) :
    pathJoin b "komorebi.sample.ahk" ≠ pathJoin b "../../LICENSE" :=
  pathJoin_ne_of_arg_ne b _ _ (by decide)

lemma dst4_ne_licPath (b : String) :
    pathJoin b "komorebic.lib.ahk" ≠ pathJoin b "../../LICENSE" :=
  pathJoin_ne_of_arg_ne b _ _ (by decide)

lemma dst2_ne_dst1 (b : String) :
    pathJoin b "komorebic.exe" ≠ pathJoin b "komorebi.exe" :=
  pathJoin_ne_of_arg_ne b _ _ (by decide)

lemma dst3_ne_dst1 (b : String) :
    pathJoin b "komorebi.sample.ahk" ≠ pathJoin b "komorebi.exe" :=
  pathJoin_ne_of_arg_ne b _ _ (by decide)

lemma dst3_ne_dst2 (b : String) :
    pathJoin b "komorebi.sample.ahk" ≠ pathJoin b "komorebic.exe" :=
  pathJoin_ne_of_arg_ne b _ _ (by decide)

lemma dst4_ne_dst1 (b : String) :
    pathJoin b "komorebic.lib.ahk" ≠ pathJoin b "komorebi.exe" :=
  pathJoin_ne_of_arg_ne b _ _ (by decide)

lemma dst4_ne_dst2 (b : String) :
    pathJoin b "komorebic.lib.ahk" ≠ pathJoin b "komorebic.exe" :=
  pathJoin_ne_of_arg_ne b _ _ (by decide)

lemma dst4_ne_dst3 (b : String) :
    pathJoin b "komorebic.lib.ahk" ≠ pathJoin b "komorebi.sample.ahk" :=
  pathJoin_ne_of_arg_ne b _ _ (by decide)

/-- The position scan `includesAux` decides substring containment. -/
lemma includesAux_iff_infix : ∀ s sub : List Char,
    includesAux s sub = true ↔ sub <:+: s := by
  intro s
  induction s with
  | nil =>
      intro sub
      simp [includesAux, List.isEmpty_iff, List.infix_nil]
  | cons a t ih =>
      intro sub
      simp only [includesAux, Bool.or_eq_true, List.isPrefixOf_iff_prefix, ih,
        List.infix_cons_iff]

/-! ### Claim theorems -/

/-- C2: the publisher configuration's prerelease flag is true if and only if
the version string contains "beta" as a substring; in particular
"1.2.0-beta.1" and "1.2.0-betax" give true and "1.2.0" gives false. -/
theorem prerelease_iff_beta_substring :
    (∀ v : String, prereleaseOf v = true ↔ "beta".data <:+: v.data) ∧
    prereleaseOf "1.2.0-beta.1" = true ∧
    prereleaseOf "1.2.0" = false ∧
    prereleaseOf "1.2.0-betax" = true := by
  refine ⟨fun v => ?_, by decide, by decide, by decide⟩
  simpa [prereleaseOf, jsIncludes] using includesAux_iff_infix v.data "beta".data

/-- C3 counterexample: on the non-Windows platform "darwin" the prePackage
hook is not a no-op — it performs an external script invocation. -/
theorem prePackage_invokes_script_on_darwin :
    "darwin" ≠ "win32" ∧
    (prePackage "darwin" "1.0.0" "g" (fun _ _ => Except.ok ())
        { fs := fun _ => none, trace := [] }).2.trace =
      [Event.runPwsh "prePackage.ps1" "-Folder g/out/Komorebi UI-win32-x64"] := by
  exact ⟨by decide, rfl⟩

/-- C3 (amended): for every target platform — the hook never inspects the
platform argument — prePackage performs exactly one external script
invocation and leaves the filesystem untouched; it is not a no-op on
non-Windows platforms. -/
theorem prePackage_always_invokes_script (platform version cwd : String)
    (pwsh : String → String → Except String Unit) (st : St) :
    (prePackage platform version cwd pwsh st).2.trace =
      st.trace ++ [Event.runPwsh "prePackage.ps1"
        ("-Folder " ++ pathJoin cwd "out/Komorebi UI-win32-x64")] ∧
    (prePackage platform version cwd pwsh st).2.fs = st.fs :=
  ⟨rfl, rfl⟩

/-- C7: prePackage invokes the external platform script with exactly the
target output folder path interpolated into its argument string, and the
hook's own result is exactly the script invocation's result, so a failure
of the script is propagated as the hook's failure. -/
theorem prePackage_arg_and_propagation (platform version cwd : String)
    (pwsh : String → String → Except String Unit) (st : St) :
    (prePackage platform version cwd pwsh st).1 =
      pwsh "prePackage.ps1" ("-Folder " ++ pathJoin cwd "out/Komorebi UI-win32-x64") ∧
    (prePackage platform version cwd pwsh st).2.trace =
      st.trace ++ [Event.runPwsh "prePackage.ps1"
        ("-Folder " ++ pathJoin cwd "out/Komorebi UI-win32-x64")] :=
  ⟨rfl, rfl⟩

/-- C9: the GITHUB_TOKEN credential is never observable in the hooks'
behaviour: two runs of the three hooks under environments that differ only
at "GITHUB_TOKEN" are identical (same results, same filesystem, same
trace of writes and external invocations), and in the publisher
configuration every field except authToken is independent of the
environment, the credential flowing only into authToken. -/
theorem hooks_independent_of_token
    (env1 env2 : String → Option String)
    (hagree : ∀ k, k ≠ "GITHUB_TOKEN" → env1 k = env2 k)
    (compiler : String → Except String String)
    (pwsh : String → String → Except String Unit)
    (platform version dirname cwd buildPath : String)
    (st : St) (v : String) :
    runAllHooks env1 compiler pwsh platform version dirname cwd buildPath st =
      runAllHooks env2 compiler pwsh platform version dirname cwd buildPath st ∧
    (publisherConfig env1 v).prerelease = (publisherConfig env2 v).prerelease ∧
    (publisherConfig env1 v).repository = (publisherConfig env2 v).repository ∧
    (publisherConfig env1 v).generateReleaseNotes =
      (publisherConfig env2 v).generateReleaseNotes ∧
    (publisherConfig env1 v).authToken = env1 "GITHUB_TOKEN" :=
  ⟨rfl, rfl, rfl, rfl, rfl⟩

/-- C9 witness: the non-interference theorem applied to two concrete
environments that differ exactly at GITHUB_TOKEN. -/
theorem hooks_independent_of_token_witness :
    runAllHooks (fun k => if k = "GITHUB_TOKEN" then some "tokenA" else none)
        (fun _ => Except.ok "out") (fun _ _ => Except.ok ())
        "win32" "1.0.0" "app" "cwd" "stage" { fs := fun _ => none, trace := [] } =
      runAllHooks (fun k => if k = "GITHUB_TOKEN" then some "tokenB" else none)
        (fun _ => Except.ok "out") (fun _ _ => Except.ok ())
        "win32" "1.0.0" "app" "cwd" "stage" { fs := fun _ => none, trace := [] } ∧
    (publisherConfig (fun k => if k = "GITHUB_TOKEN" then some "tokenA" else none)
        "2.0.0-beta").prerelease =
      (publisherConfig (fun k => if k = "GITHUB_TOKEN" then some "tokenB" else none)
        "2.0.0-beta").prerelease ∧
    (publisherConfig (fun k => if k = "GITHUB_TOKEN" then some "tokenA" else none)
        "2.0.0-beta").repository =
      (publisherConfig (fun k => if k = "GITHUB_TOKEN" then some "tokenB" else none)
        "2.0.0-beta").repository ∧
    (publisherConfig (fun k => if k = "GITHUB_TOKEN" then some "tokenA" else none)
        "2.0.0-beta").generateReleaseNotes =
      (publisherConfig (fun k => if k = "GITHUB_TOKEN" then some "tokenB" else none)
        "2.0.0-beta").generateReleaseNotes ∧
    (publisherConfig (fun k => if k = "GITHUB_TOKEN" then some "tokenA" else none)
        "2.0.0-beta").authToken =
      (fun k => if k = "GITHUB_TOKEN" then some "tokenA" else none) "GITHUB_TOKEN" :=
  hooks_independent_of_token
    (fun k => if k = "GITHUB_TOKEN" then some "tokenA" else none)
    (fun k => if k = "GITHUB_TOKEN" then some "tokenB" else none)
    (fun k hk => by simp [hk])
    (fun _ => Except.ok "out") (fun _ _ => Except.ok ())
    "win32" "1.0.0" "app" "cwd" "stage" { fs := fun _ => none, trace := [] }
    "2.0.0-beta"

/-- C5: in every run of generateAssets, whenever the external build step is
reached, both schema compilations and both type-definition writes have
already happened, in order, before the build-step event. -/
theorem generateAssets_writes_before_build
    (compiler : String → Except String String) (fs0 : FS)
    (h : Event.importBuild "./scripts/build.mjs" ∈
      (generateAssets compiler { fs := fs0, trace := [] }).2.trace) :
    ∃ t1 t2,
      compiler "./komorebi/schema.json" = Except.ok t1 ∧
      compiler "./komorebi/schema.asc.json" = Except.ok t2 ∧
      (generateAssets compiler { fs := fs0, trace := [] }).2.trace =
        [Event.compileSchema "./komorebi/schema.json",
         Event.writeF "./src/JsonSettings.interface.ts" t1,
         Event.compileSchema "./komorebi/schema.asc.json",
         Event.writeF "./src/YamlSettings.interface.ts" t2,
         Event.importBuild "./scripts/build.mjs"] := by
  cases hc1 : compiler "./komorebi/schema.json" with
  | error e =>
      exfalso
      simp [generateAssets, mbind, compileFromFile, writeFileSync, importScript, hc1] at h
  | ok t1 =>
      cases hc2 : compiler "./komorebi/schema.asc.json" with
      | error e =>
          exfalso
          simp [generateAssets, mbind, compileFromFile, writeFileSync, importScript,
            hc1, hc2] at h
      | ok t2 =>
          exact ⟨t1, t2, rfl, rfl, by
            simp [generateAssets, mbind, compileFromFile, writeFileSync, importScript,
              hc1, hc2]⟩

/-- C5 witness: the ordering theorem applied to a concrete compiler whose
run does reach the build step. -/
theorem generateAssets_writes_before_build_witness :
    (generateAssets (fun _ => Except.ok "out")
        { fs := fun _ => none, trace := [] }).2.trace =
      [Event.compileSchema "./komorebi/schema.json",
       Event.writeF "./src/JsonSettings.interface.ts" "out",
       Event.compileSchema "./komorebi/schema.asc.json",
       Event.writeF "./src/YamlSettings.interface.ts" "out",
       Event.importBuild "./scripts/build.mjs"] := by
  obtain ⟨t1, t2, hx1, hx2, h3⟩ :=
    generateAssets_writes_before_build (fun _ => Except.ok "out") (fun _ => none)
      (by simp [generateAssets, mbind, compileFromFile, writeFileSync, importScript])
  injection hx1 with hxe1
  injection hx2 with hxe2
  rw [← hxe1, ← hxe2] at h3
  exact h3

/-- C8: when the schema compiler succeeds on both schemas, generateAssets
succeeds and writes the two destination files with exactly the compiler's
output for the corresponding schema (non-empty whenever that output is),
and re-running generateAssets in the resulting state yields byte-identical
destination files. -/
theorem generateAssets_outputs_exact
    (compiler : String → Except String String) (fs0 : FS) (tr0 : List Event)
    (t1 t2 : String)
    (hc1 : compiler "./komorebi/schema.json" = Except.ok t1)
    (hc2 : compiler "./komorebi/schema.asc.json" = Except.ok t2)
    (h1 : t1 ≠ "") (h2 : t2 ≠ "") :
    (generateAssets compiler { fs := fs0, trace := tr0 }).1 = Except.ok () ∧
    (generateAssets compiler { fs := fs0, trace := tr0 }).2.fs
      "./src/JsonSettings.interface.ts" = some t1 ∧
    (generateAssets compiler { fs := fs0, trace := tr0 }).2.fs
      "./src/YamlSettings.interface.ts" = some t2 ∧
    (generateAssets compiler { fs := fs0, trace := tr0 }).2.fs
      "./src/JsonSettings.interface.ts" ≠ some "" ∧
    (generateAssets compiler { fs := fs0, trace := tr0 }).2.fs
      "./src/YamlSettings.interface.ts" ≠ some "" ∧
    (generateAssets compiler
        ((generateAssets compiler { fs := fs0, trace := tr0 }).2)).2.fs
      "./src/JsonSettings.interface.ts" =
      (generateAssets compiler { fs := fs0, trace := tr0 }).2.fs
        "./src/JsonSettings.interface.ts" ∧
    (generateAssets compiler
        ((generateAssets compiler { fs := fs0, trace := tr0 }).2)).2.fs
      "./src/YamlSettings.interface.ts" =
      (generateAssets compiler { fs := fs0, trace := tr0 }).2.fs
        "./src/YamlSettings.interface.ts" := by
  have hne : ("./src/JsonSettings.interface.ts" : String) ≠
      "./src/YamlSettings.interface.ts" := by decide
  simp [generateAssets, mbind, compileFromFile, writeFileSync, importScript,
    hc1, hc2, h1, h2, hne]

/-- C8 witness: the exact-output theorem applied to a concrete compiler. -/
theorem generateAssets_outputs_exact_witness :
    (generateAssets (fun p => Except.ok ("T:" ++ p))
        { fs := fun _ => none, trace := [] }).1 = Except.ok () ∧
    (generateAssets (fun p => Except.ok ("T:" ++ p))
        { fs := fun _ => none, trace := [] }).2.fs
      "./src/JsonSettings.interface.ts" = some "T:./komorebi/schema.json" ∧
    (generateAssets (fun p => Except.ok ("T:" ++ p))
        { fs := fun _ => none, trace := [] }).2.fs
      "./src/YamlSettings.interface.ts" = some "T:./komorebi/schema.asc.json" ∧
    (generateAssets (fun p => Except.ok ("T:" ++ p))
        { fs := fun _ => none, trace := [] }).2.fs
      "./src/JsonSettings.interface.ts" ≠ some "" ∧
    (generateAssets (fun p => Except.ok ("T:" ++ p))
        { fs := fun _ => none, trace := [] }).2.fs
      "./src/YamlSettings.interface.ts" ≠ some "" ∧
    (generateAssets (fun p => Except.ok ("T:" ++ p))
        ((generateAssets (fun p => Except.ok ("T:" ++ p))
          { fs := fun _ => none, trace := [] }).2)).2.fs
      "./src/JsonSettings.interface.ts" =
      (generateAssets (fun p => Except.ok ("T:" ++ p))
          { fs := fun _ => none, trace := [] }).2.fs
        "./src/JsonSettings.interface.ts" ∧
    (generateAssets (fun p => Except.ok ("T:" ++ p))
        ((generateAssets (fun p => Except.ok ("T:" ++ p))
          { fs := fun _ => none, trace := [] }).2)).2.fs
      "./src/YamlSettings.interface.ts" =
      (generateAssets (fun p => Except.ok ("T:" ++ p))
          { fs := fun _ => none, trace := [] }).2.fs
        "./src/YamlSettings.interface.ts" :=
  generateAssets_outputs_exact (fun p => Except.ok ("T:" ++ p)) (fun _ => none) []
    "T:./komorebi/schema.json" "T:./komorebi/schema.asc.json"
    rfl rfl (by decide) (by decide)

/-- C10: packageAfterCopy reads all three license files before performing
any write or copy: if any of the three license reads fails, the hook fails
and the filesystem — in particular the framework license file and every
copy destination — is left exactly as it was. -/
theorem packageAfterCopy_reads_before_writes (d b : String) (fs0 : FS)
    (tr0 : List Event)
    (h : fs0 (pathJoin d "LICENSE") = none ∨
         fs0 (pathJoin d "komorebi/LICENSE") = none ∨
         fs0 (pathJoin b "../../LICENSE") = none) :
    (∃ e, (packageAfterCopy d b { fs := fs0, trace := tr0 }).1 = Except.error e) ∧
    (packageAfterCopy d b { fs := fs0, trace := tr0 }).2.fs = fs0 := by
  rcases h with h1 | h2 | h3
  · refine ⟨⟨"ENOENT: " ++ pathJoin d "LICENSE", ?_⟩, ?_⟩ <;>
      simp [packageAfterCopy, mbind, readFileSync, h1]
  · cases hc1 : fs0 (pathJoin d "LICENSE") with
    | none =>
        refine ⟨⟨"ENOENT: " ++ pathJoin d "LICENSE", ?_⟩, ?_⟩ <;>
          simp [packageAfterCopy, mbind, readFileSync, hc1]
    | some own =>
        refine ⟨⟨"ENOENT: " ++ pathJoin d "komorebi/LICENSE", ?_⟩, ?_⟩ <;>
          simp [packageAfterCopy, mbind, readFileSync, hc1, h2]
  · cases hc1 : fs0 (pathJoin d "LICENSE") with
    | none =>
        refine ⟨⟨"ENOENT: " ++ pathJoin d "LICENSE", ?_⟩, ?_⟩ <;>
          simp [packageAfterCopy, mbind, readFileSync, hc1]
    | some own =>
        cases hc2 : fs0 (pathJoin d "komorebi/LICENSE") with
        | none =>
            refine ⟨⟨"ENOENT: " ++ pathJoin d "komorebi/LICENSE", ?_⟩, ?_⟩ <;>
              simp [packageAfterCopy, mbind, readFileSync, hc1, hc2]
        | some wrapped =>
            refine ⟨⟨"ENOENT: " ++ pathJoin b "../../LICENSE", ?_⟩, ?_⟩ <;>
              simp [packageAfterCopy, mbind, readFileSync, hc1, hc2, h3]

/-- C10 witness: the read-failure theorem applied to a filesystem holding
the two application-side licenses but missing the framework license. -/
theorem packageAfterCopy_reads_before_writes_witness :
    (packageAfterCopy "app" "stage"
        { fs := fun p => if p = pathJoin "app" "LICENSE" then some "own"
            else if p = pathJoin "app" "komorebi/LICENSE" then some "wrapped"
            else none,
          trace := [] }).1 =
      Except.error ("ENOENT: " ++ pathJoin "stage" "../../LICENSE") ∧
    (packageAfterCopy "app" "stage"
        { fs := fun p => if p = pathJoin "app" "LICENSE" then some "own"
            else if p = pathJoin "app" "komorebi/LICENSE" then some "wrapped"
            else none,
          trace := [] }).2.fs =
      (fun p => if p = pathJoin "app" "LICENSE" then some "own"
          else if p = pathJoin "app" "komorebi/LICENSE" then some "wrapped"
          else none) :=
  ⟨by rfl,
   (packageAfterCopy_reads_before_writes "app" "stage" _ []
      (Or.inr (Or.inr (by decide)))).2⟩

/-- C1: packageAfterCopy writes to the framework license file, at the fixed
relative path two levels above the staging directory, exactly the
concatenation own ++ "\n\n- - -\n\n" ++ wrapped ++ "\n\n- - -\n\n" ++
framework of the three license texts, whatever they are. -/
theorem packageAfterCopy_license_content (d b : String) (fs0 : FS)
    (tr0 : List Event) (own wrapped framework : String)
    (h1 : fs0 (pathJoin d "LICENSE") = some own)
    (h2 : fs0 (pathJoin d "komorebi/LICENSE") = some wrapped)
    (h3 : fs0 (pathJoin b "../../LICENSE") = some framework) :
    (packageAfterCopy d b { fs := fs0, trace := tr0 }).2.fs
      (pathJoin b "../../LICENSE") =
      some (own ++ "\n\n- - -\n\n" ++ wrapped ++ "\n\n- - -\n\n" ++ framework) := by
  have e1 := src1_ne_licPath d b
  have e2 := src2_ne_licPath d b
  have e2a := src2_ne_dst1 d b
  have e3 := src3_ne_licPath d b
  have e3a := src3_ne_dst1 d b
  have e3b := src3_ne_dst2 d b
  have e4 := src4_ne_licPath d b
  have e4a := src4_ne_dst1 d b
  have e4b := src4_ne_dst2 d b
  have e4c := src4_ne_dst3 d b
  have f1 := licPath_ne_dst1 b
  have f2 := licPath_ne_dst2 b
  have f3 := licPath_ne_dst3 b
  have f4 := licPath_ne_dst4 b
  simp [packageAfterCopy, mbind, readFileSync, writeFileSync, copyFileSync,
    jsJoin, String.append_assoc, h1, h2, h3, e1, e2, e2a, e3, e3a, e3b,
    e4, e4a, e4b, e4c, f1, f2, f3, f4]
  cases hc1 : fs0
      (pathJoin d "komorebi/target/x86_64-pc-windows-msvc/release/komorebi.exe") with
  | none => simp [f1, f2, f3, f4]
  | some c1 =>
      simp only [hc1, e2, e2a, ne_eq, if_neg, not_false_eq_true, if_false]
      cases hc2 : fs0
          (pathJoin d "komorebi/target/x86_64-pc-windows-msvc/release/komorebic.exe") with
      | none => simp [f1, f2, f3, f4]
      | some c2 =>
          simp only [hc2, e3, e3a, e3b, ne_eq, if_neg, not_false_eq_true, if_false]
          cases hc3 : fs0 (pathJoin d "komorebi/komorebi.sample.ahk") with
          | none => simp [f1, f2, f3, f4]
          | some c3 =>
              simp only [hc3, e4, e4a, e4b, e4c, ne_eq, if_neg, not_false_eq_true,
                if_false]
              cases hc4 : fs0 (pathJoin d "komorebi/komorebic.lib.ahk") with
              | none => simp [f1, f2, f3, f4]
              | some c4 => simp [f1, f2, f3, f4]

/-- C1 witness: the license concatenation theorem applied to a concrete
filesystem holding the three license texts. -/
theorem packageAfterCopy_license_content_witness :
    (packageAfterCopy "app" "stage"
        { fs := fun p => if p = pathJoin "app" "LICENSE" then some "own"
            else if p = pathJoin "app" "komorebi/LICENSE" then some "wrapped"
            else if p = pathJoin "stage" "../../LICENSE" then some "framework"
            else none,
          trace := [] }).2.fs (pathJoin "stage" "../../LICENSE") =
      some ("own" ++ "\n\n- - -\n\n" ++ "wrapped" ++ "\n\n- - -\n\n" ++ "framework") :=
  packageAfterCopy_license_content "app" "stage" _ [] "own" "wrapped" "framework"
    (by decide) (by decide) (by decide)

/-- C6: in a run of packageAfterCopy in which all inputs are present, the
effects happen in exactly this order: the three license reads, the write of
the joined licenses over the framework license file two levels above the
staging directory, then the four artifact copies into the staging
directory under their original filenames. -/
theorem packageAfterCopy_effect_order (d b : String) (fs0 : FS)
    (own wrapped framework c1 c2 c3 c4 : String)
    (h1 : fs0 (pathJoin d "LICENSE") = some own)
    (h2 : fs0 (pathJoin d "komorebi/LICENSE") = some wrapped)
    (h3 : fs0 (pathJoin b "../../LICENSE") = some framework)
    (g1 : fs0 (pathJoin d "komorebi/target/x86_64-pc-windows-msvc/release/komorebi.exe")
      = some c1)
    (g2 : fs0 (pathJoin d "komorebi/target/x86_64-pc-windows-msvc/release/komorebic.exe")
      = some c2)
    (g3 : fs0 (pathJoin d "komorebi/komorebi.sample.ahk") = some c3)
    (g4 : fs0 (pathJoin d "komorebi/komorebic.lib.ahk") = some c4) :
    (packageAfterCopy d b { fs := fs0, trace := [] }).1 = Except.ok () ∧
    (packageAfterCopy d b { fs := fs0, trace := [] }).2.trace =
      [Event.readF (pathJoin d "LICENSE"),
       Event.readF (pathJoin d "komorebi/LICENSE"),
       Event.readF (pathJoin b "../../LICENSE"),
       Event.writeF (pathJoin b "../../LICENSE")
         (own ++ "\n\n- - -\n\n" ++ wrapped ++ "\n\n- - -\n\n" ++ framework),
       Event.copyF (pathJoin d "komorebi/target/x86_64-pc-windows-msvc/release/komorebi.exe")
         (pathJoin b "komorebi.exe"),
       Event.copyF (pathJoin d "komorebi/target/x86_64-pc-windows-msvc/release/komorebic.exe")
         (pathJoin b "komorebic.exe"),
       Event.copyF (pathJoin d "komorebi/komorebi.sample.ahk")
         (pathJoin b "komorebi.sample.ahk"),
       Event.copyF (pathJoin d "komorebi/komorebic.lib.ahk")
         (pathJoin b "komorebic.lib.ahk")] := by
  have e1 := src1_ne_licPath d b
  have e2 := src2_ne_licPath d b
  have e2a := src2_ne_dst1 d b
  have e3 := src3_ne_licPath d b
  have e3a := src3_ne_dst1 d b
  have e3b := src3_ne_dst2 d b
  have e4 := src4_ne_licPath d b
  have e4a := src4_ne_dst1 d b
  have e4b := src4_ne_dst2 d b
  have e4c := src4_ne_dst3 d b
  simp [packageAfterCopy, mbind, readFileSync, writeFileSync, copyFileSync,
    jsJoin, String.append_assoc, h1, h2, h3, g1, g2, g3, g4,
    e1, e2, e2a, e3, e3a, e3b, e4, e4a, e4b, e4c]

/-- C6 witness: the effect-order theorem applied to a concrete filesystem
holding all seven input files. -/
theorem packageAfterCopy_effect_order_witness :
    (packageAfterCopy "app" "stage"
        { fs := fun p => if p = pathJoin "app" "LICENSE" then some "own"
            else if p = pathJoin "app" "komorebi/LICENSE" then some "wrapped"
            else if p = pathJoin "stage" "../../LICENSE" then some "framework"
            else if p = pathJoin "app"
               "komorebi/target/x86_64-pc-windows-msvc/release/komorebi.exe"
              then some "exe1"
            else if p = pathJoin "app"
               "komorebi/target/x86_64-pc-windows-msvc/release/komorebic.exe"
              then some "exe2"
            else if p = pathJoin "app" "komorebi/komorebi.sample.ahk" then some "ahk1"
            else if p = pathJoin "app" "komorebi/komorebic.lib.ahk" then some "ahk2"
            else none,
          trace := [] }).1 = Except.ok () ∧
    (packageAfterCopy "app" "stage"
        { fs := fun p => if p = pathJoin "app" "LICENSE" then some "own"
            else if p = pathJoin "app" "komorebi/LICENSE" then some "wrapped"
            else if p = pathJoin "stage" "../../LICENSE" then some "framework"
            else if p = pathJoin "app"
               "komorebi/target/x86_64-pc-windows-msvc/release/komorebi.exe"
              then some "exe1"
            else if p = pathJoin "app"
               "komorebi/target/x86_64-pc-windows-msvc/release/komorebic.exe"
              then some "exe2"
            else if p = pathJoin "app" "komorebi/komorebi.sample.ahk" then some "ahk1"
            else if p = pathJoin "app" "komorebi/komorebic.lib.ahk" then some "ahk2"
            else none,
          trace := [] }).2.trace =
      [Event.readF (pathJoin "app" "LICENSE"),
       Event.readF (pathJoin "app" "komorebi/LICENSE"),
       Event.readF (pathJoin "stage" "../../LICENSE"),
       Event.writeF (pathJoin "stage" "../../LICENSE")
         ("own" ++ "\n\n- - -\n\n" ++ "wrapped" ++ "\n\n- - -\n\n" ++ "framework"),
       Event.copyF
         (pathJoin "app" "komorebi/target/x86_64-pc-windows-msvc/release/komorebi.exe")
         (pathJoin "stage" "komorebi.exe"),
       Event.copyF
         (pathJoin "app" "komorebi/target/x86_64-pc-windows-msvc/release/komorebic.exe")
         (pathJoin "stage" "komorebic.exe"),
       Event.copyF (pathJoin "app" "komorebi/komorebi.sample.ahk")
         (pathJoin "stage" "komorebi.sample.ahk"),
       Event.copyF (pathJoin "app" "komorebi/komorebic.lib.ahk")
         (pathJoin "stage" "komorebic.lib.ahk")] :=
  packageAfterCopy_effect_order "app" "stage" _
    "own" "wrapped" "framework" "exe1" "exe2" "ahk1" "ahk2"
    (by decide) (by decide) (by decide) (by decide) (by decide) (by decide) (by decide)

/-- The four fixed artifact source paths, in the order they are copied. -/
def srcPaths (d : String) : Fin 4 → String
  | ⟨0, _⟩ => pathJoin d "komorebi/target/x86_64-pc-windows-msvc/release/komorebi.exe"
  | ⟨1, _⟩ => pathJoin d "komorebi/target/x86_64-pc-windows-msvc/release/komorebic.exe"
  | ⟨2, _⟩ => pathJoin d "komorebi/komorebi.sample.ahk"
  | ⟨3, _⟩ => pathJoin d "komorebi/komorebic.lib.ahk"

/-- The four fixed artifact destination paths, in copy order. -/
def dstPaths (b : String) : Fin 4 → String
  | ⟨0, _⟩ => pathJoin b "komorebi.exe"
  | ⟨1, _⟩ => pathJoin b "komorebic.exe"
  | ⟨2, _⟩ => pathJoin b "komorebi.sample.ahk"
  | ⟨3, _⟩ => pathJoin b "komorebic.lib.ahk"

/-- C4: if the i-th artifact source is absent (and the sources copied
before it are present, so the run reaches it), packageAfterCopy fails with
a missing-file error and the i-th destination file is left exactly as it
was: no destination is silently created as a partial copy of a missing
source. -/
theorem packageAfterCopy_missing_source_fails (d b : String) (fs0 : FS)
    (tr0 : List Event) (own wrapped framework : String) (i : Fin 4)
    (h1 : fs0 (pathJoin d "LICENSE") = some own)
    (h2 : fs0 (pathJoin d "komorebi/LICENSE") = some wrapped)
    (h3 : fs0 (pathJoin b "../../LICENSE") = some framework)
    (habsent : fs0 (srcPaths d i) = none)
    (hpresent : ∀ j : Fin 4, j < i → (fs0 (srcPaths d j)).isSome) :
    (packageAfterCopy d b { fs := fs0, trace := tr0 }).1 =
      Except.error ("ENOENT: " ++ srcPaths d i) ∧
    (packageAfterCopy d b { fs := fs0, trace := tr0 }).2.fs (dstPaths b i) =
      fs0 (dstPaths b i) := by
  have e1 := src1_ne_licPath d b
  have e2 := src2_ne_licPath d b
  have e2a := src2_ne_dst1 d b
  have e3 := src3_ne_licPath d b
  have e3a := src3_ne_dst1 d b
  have e3b := src3_ne_dst2 d b
  have e4 := src4_ne_licPath d b
  have e4a := src4_ne_dst1 d b
  have e4b := src4_ne_dst2 d b
  have e4c := src4_ne_dst3 d b
  have f1 := dst1_ne_licPath b
  have f2 := dst2_ne_licPath b
  have f3 := dst3_ne_licPath b
  have f4 := dst4_ne_licPath b
  have g21 := dst2_ne_dst1 b
  have g31 := dst3_ne_dst1 b
  have g32 := dst3_ne_dst2 b
  have g41 := dst4_ne_dst1 b
  have g42 := dst4_ne_dst2 b
  have g43 := dst4_ne_dst3 b
  fin_cases i
  · simp only [srcPaths, dstPaths] at habsent ⊢
    simp [packageAfterCopy, mbind, readFileSync, writeFileSync, copyFileSync,
      jsJoin, String.append_assoc, h1, h2, h3, habsent, e1, f1]
  · have hp1 := hpresent ⟨0, by omega⟩ (by decide)
    simp only [srcPaths] at hp1
    rcases Option.isSome_iff_exists.mp hp1 with ⟨c1, hc1⟩
    simp only [srcPaths, dstPaths] at habsent ⊢
    simp [packageAfterCopy, mbind, readFileSync, writeFileSync, copyFileSync,
      jsJoin, String.append_assoc, h1, h2, h3, hc1, habsent,
      e1, e2, e2a, f2, g21]
  · have hp1 := hpresent ⟨0, by omega⟩ (by decide)
    have hp2 := hpresent ⟨1, by omega⟩ (by decide)
    simp only [srcPaths] at hp1 hp2
    rcases Option.isSome_iff_exists.mp hp1 with ⟨c1, hc1⟩
    rcases Option.isSome_iff_exists.mp hp2 with ⟨c2, hc2⟩
    simp only [srcPaths, dstPaths] at habsent ⊢
    simp [packageAfterCopy, mbind, readFileSync, writeFileSync, copyFileSync,
      jsJoin, String.append_assoc, h1, h2, h3, hc1, hc2, habsent,
      e1, e2, e2a, e3, e3a, e3b, f3, g31, g32]
  · have hp1 := hpresent ⟨0, by omega⟩ (by decide)
    have hp2 := hpresent ⟨1, by omega⟩ (by decide)
    have hp3 := hpresent ⟨2, by omega⟩ (by decide)
    simp only [srcPaths] at hp1 hp2 hp3
    rcases Option.isSome_iff_exists.mp hp1 with ⟨c1, hc1⟩
    rcases Option.isSome_iff_exists.mp hp2 with ⟨c2, hc2⟩
    rcases Option.isSome_iff_exists.mp hp3 with ⟨c3, hc3⟩
    simp only [srcPaths, dstPaths] at habsent ⊢
    simp [packageAfterCopy, mbind, readFileSync, writeFileSync, copyFileSync,
      jsJoin, String.append_assoc, h1, h2, h3, hc1, hc2, hc3, habsent,
      e1, e2, e2a, e3, e3a, e3b, e4, e4a, e4b, e4c, f4, g41, g42, g43]

/-- C4 witness: the missing-source theorem applied to a concrete filesystem
in which the second artifact source (komorebic.exe) is absent while the
licenses and the first artifact source are present. -/
theorem packageAfterCopy_missing_source_fails_witness :
    (packageAfterCopy "app" "stage"
        { fs := fun p => if p = pathJoin "app" "LICENSE" then some "own"
            else if p = pathJoin "app" "komorebi/LICENSE" then some "wrapped"
            else if p = pathJoin "stage" "../../LICENSE" then some "framework"
            else if p = pathJoin "app"
               "komorebi/target/x86_64-pc-windows-msvc/release/komorebi.exe"
              then some "exe1"
            else none,
          trace := [] }).1 =
      Except.error ("ENOENT: " ++ srcPaths "app" ⟨1, by omega⟩) ∧
    (packageAfterCopy "app" "stage"
        { fs := fun p => if p = pathJoin "app" "LICENSE" then some "own"
            else if p = pathJoin "app" "komorebi/LICENSE" then some "wrapped"
            else if p = pathJoin "stage" "../../LICENSE" then some "framework"
            else if p = pathJoin "app"
               "komorebi/target/x86_64-pc-windows-msvc/release/komorebi.exe"
              then some "exe1"
            else none,
          trace := [] }).2.fs (dstPaths "stage" ⟨1, by omega⟩) =
      (fun p => if p = pathJoin "app" "LICENSE" then some "own"
          else if p = pathJoin "app" "komorebi/LICENSE" then some "wrapped"
          else if p = pathJoin "stage" "../../LICENSE" then some "framework"
          else if p = pathJoin "app"
             "komorebi/target/x86_64-pc-windows-msvc/release/komorebi.exe"
            then some "exe1"
          else none) (dstPaths "stage" ⟨1, by omega⟩) :=
  packageAfterCopy_missing_source_fails "app" "stage" _ []
    "own" "wrapped" "framework" ⟨1, by omega⟩
    (by decide) (by decide) (by decide) (by decide)
    (by decide)

end Forge
